import Mathlib

/-!
# IOMT forwarding gateway: receiver-URL resolution and request forwarding

A shallow embedding of `models/firebase/functions/config.js` (the class `FirebaseConfig`), of
`models/firebase/functions/index.js` (the HTTPS handlers `processNonCompressed`,
`processCompressed` and `health`) and of the function `getLatestResults` of
`models/frontend/src/App.js`.

The handlers are asynchronous JavaScript functions that read the request body, consult the
resolver, issue one HTTP call and send a response.  They are embedded as pure functions:

* JSON-decoded JavaScript values are the inductive type `JsVal`;
* a thrown exception is the `error` side of `Except JsError`;
* the outside world (the environment variable, the answer of the discovery API, the answer of the
  receiver, the clock) is passed in as arguments;
* the mutable field `_receiverUrl` is threaded through explicitly, and every outbound HTTP call is
  appended to a list of `Call`s.
-/

namespace IOMT

/-! ## JavaScript values -/

/-- JSON-decoded JavaScript values, together with `undefined`.  Numbers are represented by
integers: `num n` is the number that the JSON text `n` decodes to, the double nearest to `n`. -/
inductive JsVal where
  | undefined
  | null
  | bool (b : Bool)
  | num (n : Int)
  | str (s : String)
  | arr (items : List JsVal)
  | obj (fields : List (String × JsVal))

/-- A thrown JavaScript error, reduced to the two properties the handlers read:
`error.code` (absent on a `TypeError`) and `error.message`. -/
structure JsError where
  code : Option String
  message : String

/-- ECMAScript `ToBoolean`. -/
def truthy : JsVal → Bool
  | .undefined => false
  | .null => false
  | .bool b => b
  | .num n => n != 0
  | .str s => s != ""
  | .arr _ => true
  | .obj _ => true

/-- The `TypeError` V8 throws when a property of `undefined` or `null` is read. -/
def typeErrorRead (base key : String) : JsError :=
  { code := none
    message := "Cannot read properties of " ++ base ++ " (reading '" ++ key ++ "')" }

/-- Number of UTF-16 code units of a string (the JavaScript `length` of a string). -/
def utf16Length (s : String) : Nat :=
  s.data.foldl (fun n c => n + (if c.val < 0x10000 then 1 else 2)) 0

/-- The UTF-16 code units of a string, in order.  A character outside the basic plane takes two
units; each of its two halves is represented by the character itself. -/
def utf16Units (s : String) : List Char :=
  (s.data.map (fun c => if c.val < 0x10000 then [c] else [c, c])).flatten

/-- Value of a canonical array-index key (`"0"`, `"1"`, `"17"`; no sign, no leading zero). -/
def parseIndexDigits : List Char → Option Nat → Option Nat
  | [], acc => acc
  | c :: cs, acc =>
    if c.isDigit then
      match acc with
      | none => parseIndexDigits cs (some (c.toNat - 48))
      | some 0 => none
      | some n => parseIndexDigits cs (some (10 * n + (c.toNat - 48)))
    else none

/-- Array index denoted by a property key, if the key is a canonical index. -/
def parseIndex (key : String) : Option Nat :=
  parseIndexDigits key.data none

/-- Property read `v[key]` (also written `v.key`) on a JSON-decoded value.  Reading a property of
`undefined` or `null` throws; own properties only (no key read by the code under study lives on a
prototype of a JSON-decoded value). -/
def getProp (v : JsVal) (key : String) : Except JsError JsVal :=
  match v with
  | .undefined => .error (typeErrorRead "undefined" key)
  | .null => .error (typeErrorRead "null" key)
  | .bool _ => .ok .undefined
  | .num _ => .ok .undefined
  | .str s =>
    if key = "length" then .ok (.num (utf16Length s))
    else match parseIndex key with
      | some i => match (utf16Units s).get? i with
        | some c => .ok (.str (String.singleton c))
        | none => .ok .undefined
      | none => .ok .undefined
  | .arr items =>
    if key = "length" then .ok (.num items.length)
    else match parseIndex key with
      | some i => .ok ((items.get? i).getD .undefined)
      | none => .ok .undefined
  | .obj fields => .ok ((fields.lookup key).getD .undefined)

/-- Number of binary digits of a natural number. -/
def bitLength (n : Nat) : Nat :=
  (Nat.toDigits 2 n).length

/-- The IEEE 754 double nearest to a natural number (round half to even), `none` when the number
rounds to `Infinity`. -/
def roundToDouble (n : Nat) : Option Nat :=
  if n < 2 ^ 53 then some n
  else
    let shift := bitLength n - 53
    let m := n / 2 ^ shift
    let r := n % 2 ^ shift
    let half := 2 ^ (shift - 1)
    let x := (if half < r ∨ (r = half ∧ m % 2 = 1) then m + 1 else m) * 2 ^ shift
    if 2 ^ 1024 ≤ x then none else some x

/-- Search of the shortest decimal: `k` is the number of significant digits tried. -/
def shortestFrom (x lo2 hi2 : Nat) (closed : Bool) (digits : Nat) : Nat → Nat → Nat
  | 0, _ => x
  | fuel + 1, k =>
    let unit := 10 ^ (digits - k)
    let lower := (x / unit) * unit
    let upper := lower + unit
    let inside := fun (v : Nat) =>
      if closed then decide (lo2 ≤ 2 * v ∧ 2 * v ≤ hi2) else decide (lo2 < 2 * v ∧ 2 * v < hi2)
    if inside lower && inside upper then
      if x - lower < upper - x then lower
      else if upper - x < x - lower then upper
      else if (x / unit) % 2 = 0 then lower else upper
    else if inside lower then lower
    else if inside upper then upper
    else shortestFrom x lo2 hi2 closed digits fuel (k + 1)

/-- The decimal with the fewest significant digits that rounds to the double `x` (a positive
integer), the closest to `x` when there are several. -/
def shortestDecimal (x : Nat) : Nat :=
  if x < 2 ^ 53 then x
  else
    let e := bitLength x - 53
    let m := x / 2 ^ e
    let below := if m = 2 ^ 52 then 2 ^ (e - 1) else 2 ^ e
    let digits := (Nat.toDigits 10 x).length
    shortestFrom x (2 * x - below) (2 * x + 2 ^ e) (m % 2 == 0) digits digits 1

/-- `Number::toString` on the number written as the integer `n`. -/
def numberToString (n : Int) : String :=
  if n = 0 then "0"
  else
    let sign := if n < 0 then "-" else ""
    match roundToDouble n.natAbs with
    | none => sign ++ "Infinity"
    | some x =>
      let ds := Nat.toDigits 10 (shortestDecimal x)
      if ds.length ≤ 21 then sign ++ String.mk ds
      else
        let exponent := String.mk (Nat.toDigits 10 (ds.length - 1))
        match (ds.reverse.dropWhile (fun c => c == '0')).reverse with
        | [] => sign ++ "0"
        | [d] => sign ++ String.mk [d] ++ "e+" ++ exponent
        | d :: rest => sign ++ String.mk (d :: '.' :: rest) ++ "e+" ++ exponent

/-- The `TypeError` V8 throws when `OrdinaryToPrimitive` finds no callable conversion method. -/
def typeErrorPrimitive : JsError :=
  { code := none, message := "Cannot convert object to primitive value" }

mutual
/-- ECMAScript `ToString` on JSON-decoded values, as used by a template literal.  An array is
converted by `Array.prototype.join`.  An object is converted by `Object.prototype.toString`, unless
it has an own key `toString`: a JSON value is not callable, the inherited `valueOf` returns the
object itself, and `OrdinaryToPrimitive` throws. -/
def toStr : JsVal → Except JsError String
  | .undefined => .ok "undefined"
  | .null => .ok "null"
  | .bool b => .ok (if b then "true" else "false")
  | .num n => .ok (numberToString n)
  | .str s => .ok s
  | .arr items => joinItems items
  | .obj fields =>
    if fields.any (fun f => f.1 == "toString") then .error typeErrorPrimitive
    else .ok "[object Object]"
termination_by structural v => v
/-- `Array.prototype.join` with the separator `","`; `undefined` and `null` items print as the
empty string, and the conversion of an item may throw. -/
def joinItems : List JsVal → Except JsError String
  | [] => .ok ""
  | x :: xs =>
    match (match x with
      | .undefined => Except.ok ""
      | .null => Except.ok ""
      | y => toStr y) with
    | .error e => .error e
    | .ok first =>
      match joinItems xs with
      | .error e => .error e
      | .ok rest =>
        .ok (first ++ (match xs with
          | [] => ""
          | _ => ",") ++ rest)
termination_by structural items => items
end

/-- The characters `StringToNumber` trims: ECMAScript `WhiteSpace` and `LineTerminator`. -/
def isStrWhiteSpace (c : Char) : Bool :=
  let n := c.toNat
  (9 ≤ n && n ≤ 13) || n == 0x20 || n == 0xA0 || n == 0x1680 || (0x2000 ≤ n && n ≤ 0x200A) ||
    n == 0x2028 || n == 0x2029 || n == 0x202F || n == 0x205F || n == 0x3000 || n == 0xFEFF

/-- Value of a run of decimal digits (`0` for the empty run). -/
def digitsValue (ds : List Char) : Nat :=
  ds.foldl (fun acc c => 10 * acc + (c.toNat - 48)) 0

/-- Whether a character is a digit of the base 2, 8 or 16. -/
def isDigitOfBase (base : Nat) (c : Char) : Bool :=
  if base = 16 then c.isDigit || ('a' ≤ c && c ≤ 'f') || ('A' ≤ c && c ≤ 'F')
  else '0' ≤ c && c.toNat < 48 + base

/-- Exponent denoted by an `ExponentPart`, or by nothing; `none` when the text is neither. -/
def exponentValue (cs : List Char) : Option Int :=
  match cs with
  | [] => some 0
  | c :: rest =>
    if c == 'e' || c == 'E' then
      match rest with
      | '+' :: ds => if !ds.isEmpty && ds.all Char.isDigit then some (digitsValue ds) else none
      | '-' :: ds => if !ds.isEmpty && ds.all Char.isDigit then some (- (digitsValue ds : Int)) else none
      | ds => if !ds.isEmpty && ds.all Char.isDigit then some (digitsValue ds) else none
    else none

/-- Whether a `StrUnsignedDecimalLiteral` denotes a number that is positive as a double, that is,
a value above half the least positive double, `2 ^ (-1075)`; false when the text is no literal. -/
def unsignedDecimalGtZero (cs : List Char) : Bool :=
  if cs == "Infinity".data then true
  else
    let intPart := cs.takeWhile Char.isDigit
    let afterInt := cs.dropWhile Char.isDigit
    let fracPart := match afterInt with
      | '.' :: r => r.takeWhile Char.isDigit
      | _ => []
    let afterFrac := match afterInt with
      | '.' :: r => r.dropWhile Char.isDigit
      | _ => afterInt
    if intPart.isEmpty && fracPart.isEmpty then false
    else
      match exponentValue afterFrac with
      | none => false
      | some ex =>
        let mantissa := digitsValue (intPart ++ fracPart)
        let scale : Int := ex - fracPart.length
        if mantissa = 0 then false
        else if 0 ≤ scale then true
        else decide (10 ^ scale.natAbs < mantissa * 2 ^ 1075)

/-- Whether `StringToNumber(s) > 0`. -/
def strGtZero (s : String) : Bool :=
  match ((s.data.dropWhile isStrWhiteSpace).reverse.dropWhile isStrWhiteSpace).reverse with
  | [] => false
  | '-' :: _ => false
  | '+' :: cs => unsignedDecimalGtZero cs
  | '0' :: c :: ds =>
    if c == 'x' || c == 'X' then
      !ds.isEmpty && ds.all (isDigitOfBase 16) && ds.any (fun d => d != '0')
    else if c == 'o' || c == 'O' then
      !ds.isEmpty && ds.all (isDigitOfBase 8) && ds.any (fun d => d != '0')
    else if c == 'b' || c == 'B' then
      !ds.isEmpty && ds.all (isDigitOfBase 2) && ds.any (fun d => d != '0')
    else unsignedDecimalGtZero ('0' :: c :: ds)
  | cs => unsignedDecimalGtZero cs

/-- The comparison `v > 0`.  The operand is converted by `ToPrimitive` (for an array or an object
the inherited `valueOf` returns the object itself, so the conversion is that of `ToString`, and it
may throw) and then by `ToNumber`; the comparison is false when the number is `NaN`. -/
def gtZero (v : JsVal) : Except JsError Bool :=
  match v with
  | .undefined => .ok false
  | .null => .ok false
  | .bool b => .ok b
  | .num n => .ok (decide (0 < n))
  | .str s => .ok (strGtZero s)
  | .arr items =>
    match toStr (.arr items) with
    | .error e => .error e
    | .ok s => .ok (strGtZero s)
  | .obj fields =>
    match toStr (.obj fields) with
    | .error e => .error e
    | .ok s => .ok (strGtZero s)

/-! ## `config.js`: the class `FirebaseConfig` -/

/-- An outbound HTTP call made through axios. -/
inductive Call where
  | get (url : String) (timeout : Nat)
  | post (url : String) (body : JsVal) (contentType : String) (timeout : Nat)

/-- An instance of the class `FirebaseConfig`: its only field is the cached receiver URL. -/
structure FirebaseConfig where
  _receiverUrl : JsVal

/-- The constructor: `this._receiverUrl = null`. -/
def FirebaseConfig.new : FirebaseConfig :=
  { _receiverUrl := .null }

/-- `static get TIMEOUT()`: 30 seconds. -/
def FirebaseConfig.TIMEOUT : Nat := 30000

/-- The address of the tunnel discovery API probed by `getReceiverUrl`. -/
def discoveryEndpoint : String := "http://localhost:4040/api/tunnels"

/-- The hardcoded fallback receiver URL. -/
def fallbackUrl : String := "http://106.222.138.233:5000"

/-- The value of `process.env.RECEIVER_URL`: a string when the variable is set, else `undefined`. -/
def envValue (env : Option String) : JsVal :=
  match env with
  | some s => .str s
  | none => .undefined

/-- What a call of `getReceiverUrl` produces: the value the promise resolves to, the instance
after the call, and the outbound calls issued. -/
structure Resolved where
  value : JsVal
  config : FirebaseConfig
  calls : List Call

/-- The body of the `try` block of `getReceiverUrl`, given the outcome of
`axios.get('http://localhost:4040/api/tunnels', { timeout: 2000 })` (`ok data` carries
`response.data`).  `ok (some url)` is the `return` inside the `if`, `ok none` falls out of the
block, `error e` is a throw. -/
def discoverTunnel (discovery : Except JsError JsVal) : Except JsError (Option JsVal) :=
  match discovery with
  | .error e => .error e
  | .ok data =>
    match getProp data "tunnels" with
    | .error e => .error e
    | .ok tunnels =>
      if truthy tunnels then
        match getProp tunnels "length" with
        | .error e => .error e
        | .ok len =>
          match gtZero len with
          | .error e => .error e
          | .ok positive =>
            if positive then
              match getProp tunnels "0" with
              | .error e => .error e
              | .ok first =>
                match getProp first "public_url" with
                | .error e => .error e
                | .ok url => .ok (some url)
            else .ok none
      else .ok none

/-- `async getReceiverUrl()`.  `env` is `process.env.RECEIVER_URL`; `discovery` is the outcome of
the GET to the discovery API, consulted only when that call is made. -/
def FirebaseConfig.getReceiverUrl (self : FirebaseConfig) (env : Option String)
    (discovery : Except JsError JsVal) : Resolved :=
  if truthy self._receiverUrl then
    { value := self._receiverUrl, config := self, calls := [] }
  else if truthy (envValue env) then
    { value := envValue env, config := { _receiverUrl := envValue env }, calls := [] }
  else
    match discoverTunnel discovery with
    | .ok (some url) =>
      { value := url, config := { _receiverUrl := url }, calls := [Call.get discoveryEndpoint 2000] }
    | _ =>
      { value := .str fallbackUrl, config := { _receiverUrl := .str fallbackUrl },
        calls := [Call.get discoveryEndpoint 2000] }

/-- The instance after a run of calls of `getReceiverUrl` on a fresh instance, one discovery
outcome per call. -/
def afterCalls (env : Option String) (outcomes : List (Except JsError JsVal)) : FirebaseConfig :=
  outcomes.foldl (fun c d => (c.getReceiverUrl env d).config) FirebaseConfig.new

/-! ## `index.js`: the HTTPS handlers -/

/-- The part of the incoming request the handlers read: `request.body`. -/
structure Request where
  body : JsVal

/-- A response sent with `response.status(status).json(body)`. -/
structure Response where
  status : Nat
  body : JsVal

/-- What the outside world answers during one run of a handler. -/
structure World where
  /-- The value of `process.env.RECEIVER_URL`. -/
  env : Option String
  /-- Outcome of the GET to the discovery API (`ok` carries `response.data`). -/
  discovery : Except JsError JsVal
  /-- Outcome of the call to the receiver (`ok` carries `receiverResponse.data`). -/
  receiver : Except JsError JsVal
  /-- The value of `new Date().toISOString()`. -/
  now : String

/-- What one run of a handler does: the responses sent, the module-level `config` instance after
the run, and the outbound calls issued, in order. -/
structure HandlerResult where
  sent : List Response
  config : FirebaseConfig
  calls : List Call

/-- The call `response.status(status).json(body)`: one more response is sent. -/
def HandlerResult.send (r : HandlerResult) (status : Nat) (body : JsVal) : HandlerResult :=
  { r with sent := r.sent ++ [{ status := status, body := body }] }

/-- The reads of `request.body` made by `processNonCompressed` before it resolves the receiver:
the three reads of the log line, then the validation `!request.body.data ||
!request.body.timestamp`.  `ok true` means the request is valid; `error e` is a throw. -/
def validateNonCompressed (body : JsVal) : Except JsError Bool :=
  match getProp body "timestamp" with
  | .error e => .error e
  | .ok _ =>
    match getProp body "data_shape" with
    | .error e => .error e
    | .ok _ =>
      match getProp body "data_type" with
      | .error e => .error e
      | .ok _ =>
        match getProp body "data" with
        | .error e => .error e
        | .ok data =>
          if !truthy data then .ok false
          else
            match getProp body "timestamp" with
            | .error e => .error e
            | .ok timestamp => if !truthy timestamp then .ok false else .ok true

/-- The handler `exports.processNonCompressed`, run on the module-level `config`. -/
def processNonCompressed (config : FirebaseConfig) (w : World) (request : Request) :
    HandlerResult :=
  let start : HandlerResult := { sent := [], config := config, calls := [] }
  -- the `try` block: the state it reaches and, when it threw, the error
  let attempt : HandlerResult × Option JsError :=
    match validateNonCompressed request.body with
    | .error e => (start, some e)
    | .ok false =>
      (start.send 400 (.obj [("success", .bool false),
                             ("error", .str "Missing required fields: data and timestamp")]), none)
    | .ok true =>
      let resolved := config.getReceiverUrl w.env w.discovery
      -- the template literal is evaluated before `axios.post` is called
      match toStr resolved.value with
      | .error e => ({ sent := [], config := resolved.config, calls := resolved.calls }, some e)
      | .ok base =>
        let post := Call.post (base ++ "/process_non_compressed") request.body
          "application/json" FirebaseConfig.TIMEOUT
        let forwarded : HandlerResult :=
          { sent := [], config := resolved.config, calls := resolved.calls ++ [post] }
        match w.receiver with
        | .error e => (forwarded, some e)
        | .ok data =>
          match getProp request.body "timestamp" with
          | .error e => (forwarded, some e)
          | .ok timestamp =>
            (forwarded.send 200 (.obj [("success", .bool true),
                                       ("message", .str "Non-compressed data processed successfully"),
                                       ("timestamp", timestamp),
                                       ("data_type", .str "non_compressed"),
                                       ("receiver_response", data)]), none)
  -- the `catch (error)` block
  match attempt with
  | (result, none) => result
  | (result, some error) =>
    if error.code = some "ECONNREFUSED" ∨ error.code = some "ENOTFOUND" then
      result.send 503 (.obj [("success", .bool false),
                             ("error", .str "Receiver service unavailable"),
                             ("details", .str "Cannot connect to the model receiver")])
    else if error.code = some "ECONNABORTED" then
      result.send 504 (.obj [("success", .bool false),
                             ("error", .str "Request timeout"),
                             ("details", .str "Receiver took too long to respond")])
    else
      result.send 500 (.obj [("success", .bool false),
                             ("error", .str "Internal server error"),
                             ("details", .str error.message)])

/-- The reads of `request.body` made by `processCompressed` before it resolves the receiver:
the three reads of the log line, then the validation `!request.body.compressed_data ||
!request.body.timestamp`.  `ok true` means the request is valid; `error e` is a throw. -/
def validateCompressed (body : JsVal) : Except JsError Bool :=
  match getProp body "timestamp" with
  | .error e => .error e
  | .ok _ =>
    match getProp body "compressed_size" with
    | .error e => .error e
    | .ok _ =>
      match getProp body "compression_type" with
      | .error e => .error e
      | .ok _ =>
        match getProp body "compressed_data" with
        | .error e => .error e
        | .ok compressedData =>
          if !truthy compressedData then .ok false
          else
            match getProp body "timestamp" with
            | .error e => .error e
            | .ok timestamp => if !truthy timestamp then .ok false else .ok true

/-- The handler `exports.processCompressed`, run on the module-level `config`. -/
def processCompressed (config : FirebaseConfig) (w : World) (request : Request) :
    HandlerResult :=
  let start : HandlerResult := { sent := [], config := config, calls := [] }
  -- the `try` block: the state it reaches and, when it threw, the error
  let attempt : HandlerResult × Option JsError :=
    match validateCompressed request.body with
    | .error e => (start, some e)
    | .ok false =>
      (start.send 400 (.obj [("success", .bool false),
                             ("error", .str "Missing required fields: compressed_data and timestamp")]),
        none)
    | .ok true =>
      let resolved := config.getReceiverUrl w.env w.discovery
      -- the template literal is evaluated before `axios.post` is called
      match toStr resolved.value with
      | .error e => ({ sent := [], config := resolved.config, calls := resolved.calls }, some e)
      | .ok base =>
        let post := Call.post (base ++ "/process_compressed") request.body
          "application/json" FirebaseConfig.TIMEOUT
        let forwarded : HandlerResult :=
          { sent := [], config := resolved.config, calls := resolved.calls ++ [post] }
        match w.receiver with
        | .error e => (forwarded, some e)
        | .ok data =>
          match getProp request.body "timestamp" with
          | .error e => (forwarded, some e)
          | .ok timestamp =>
            (forwarded.send 200 (.obj [("success", .bool true),
                                       ("message", .str "Compressed data processed successfully"),
                                       ("timestamp", timestamp),
                                       ("data_type", .str "compressed"),
                                       ("receiver_response", data)]), none)
  -- the `catch (error)` block
  match attempt with
  | (result, none) => result
  | (result, some error) =>
    if error.code = some "ECONNREFUSED" ∨ error.code = some "ENOTFOUND" then
      result.send 503 (.obj [("success", .bool false),
                             ("error", .str "Receiver service unavailable"),
                             ("details", .str "Cannot connect to the model receiver")])
    else if error.code = some "ECONNABORTED" then
      result.send 504 (.obj [("success", .bool false),
                             ("error", .str "Request timeout"),
                             ("details", .str "Receiver took too long to respond")])
    else
      result.send 500 (.obj [("success", .bool false),
                             ("error", .str "Internal server error"),
                             ("details", .str error.message)])

/-- The handler `exports.health`, run on the module-level `config`; it does not read the request.
The `catch` block sends the same response for an error thrown by the template literal and for a
failed GET. -/
def health (config : FirebaseConfig) (w : World) (_request : Request) : HandlerResult :=
  let resolved := config.getReceiverUrl w.env w.discovery
  -- the `try` block: `ok data` when the GET was answered, `error e` when something threw
  let attempt : HandlerResult × Except JsError JsVal :=
    match toStr resolved.value with
    | .error e => ({ sent := [], config := resolved.config, calls := resolved.calls }, .error e)
    | .ok base =>
      ({ sent := [], config := resolved.config,
         calls := resolved.calls ++ [Call.get (base ++ "/health") 5000] }, w.receiver)
  match attempt with
  | (probed, .ok data) =>
    probed.send 200 (.obj [("status", .str "healthy"),
                           ("timestamp", .str w.now),
                           ("receiver_status", .str "connected"),
                           ("receiver_response", data)])
  | (probed, .error error) =>
    probed.send 503 (.obj [("status", .str "unhealthy"),
                           ("timestamp", .str w.now),
                           ("receiver_status", .str "disconnected"),
                           ("error", .str error.message)])

/-! ## `frontend/src/App.js`: the dashboard's `getLatestResults` -/

/-- The strict comparison `v === 0`. -/
def strictEqZero (v : JsVal) : Bool :=
  match v with
  | .num n => n == 0
  | _ => false

/-- The strict comparison `v === s` with a string literal `s`. -/
def strictEqStr (v : JsVal) (s : String) : Bool :=
  match v with
  | .str x => x == s
  | _ => false

/-- The call `results.find(r => r.data_type === dataType)` on the items of an array: the first
item the callback accepts, `undefined` when it accepts none; the callback throws on an item that
is `undefined` or `null`. -/
def findDataType : List JsVal → String → Except JsError JsVal
  | [], _ => .ok .undefined
  | r :: rest, dataType =>
    match getProp r "data_type" with
    | .error e => .error e
    | .ok v => if strictEqStr v dataType then .ok r else findDataType rest dataType

/-- The function `getLatestResults` of the component `App`, on the value of the state variable
`results`. -/
def getLatestResults (results : JsVal) : Except JsError JsVal :=
  match getProp results "length" with
  | .error e => .error e
  | .ok len =>
    if strictEqZero len then .ok .null
    else
      match results with
      | .arr items =>
        match findDataType items "non_compressed" with
        | .error e => .error e
        | .ok nonCompressed =>
          match findDataType items "decompressed" with
          | .error e => .error e
          | .ok decompressed =>
            match findDataType items "zlib" with
            | .error e => .error e
            | .ok zlib =>
              .ok (.obj [("nonCompressed", nonCompressed), ("decompressed", decompressed),
                         ("zlib", zlib)])
      | _ => .error { code := none, message := "results.find is not a function" }

/-! ## Vocabulary of the specification -/

/-- The failure classes of the specification's data model. -/
inductive FailureClass where
  | ValidationFailure
  | ReceiverUnavailable
  | ReceiverTimeout
  | InternalFailure
  deriving DecidableEq

/-- The failure class of a response, by the specification's table of statuses (400, 503, 504 and
500); a response with another status is not a failure. -/
def failureClass (r : Response) : Option FailureClass :=
  if r.status = 400 then some .ValidationFailure
  else if r.status = 503 then some .ReceiverUnavailable
  else if r.status = 504 then some .ReceiverTimeout
  else if r.status = 500 then some .InternalFailure
  else none

/-- A body for `processNonCompressed` and a body for `processCompressed` correspond under the
renaming of the required field when `data` reads in the first as `compressed_data` reads in the
second, and `timestamp` reads the same in both (`none` standing for a read that throws). -/
def Corresponds (nonCompressed compressed : JsVal) : Prop :=
  (getProp nonCompressed "data").toOption = (getProp compressed "compressed_data").toOption ∧
    (getProp nonCompressed "timestamp").toOption = (getProp compressed "timestamp").toOption

/-- The latest result of a data type, in the words of the specification: the most recent entry
of the results array with that `data_type`, the last element of the array being the most recent
one; `undefined` when no entry has that type. -/
def latestOfType (items : List JsVal) (dataType : String) : JsVal :=
  (items.reverse.find? (fun r =>
    match getProp r "data_type" with
    | .ok v => strictEqStr v dataType
    | .error _ => false)).getD .undefined

/-! ## Auxiliary facts about property reads and validation -/

/-- A value one property of which can be read lets every property be read. -/
theorem getProp_ok_of_ok {b : JsVal} {k : String} {v : JsVal} (h : getProp b k = .ok v)
    (k' : String) : ∃ v', getProp b k' = .ok v' := by
  cases b with
  | undefined => simp [getProp] at h
  | null => simp [getProp] at h
  | bool _ => exact ⟨_, rfl⟩
  | num _ => exact ⟨_, rfl⟩
  | obj _ => exact ⟨_, rfl⟩
  | str s =>
    simp only [getProp]
    split
    · exact ⟨_, rfl⟩
    · split
      · split <;> exact ⟨_, rfl⟩
      · exact ⟨_, rfl⟩
  | arr items =>
    simp only [getProp]
    split
    · exact ⟨_, rfl⟩
    · split <;> exact ⟨_, rfl⟩

/-- On a body whose properties can be read, the validation of `processNonCompressed` is the
conjunction of the truthiness of `data` and of `timestamp`. -/
theorem validateNonCompressed_eq {b d t : JsVal} (hd : getProp b "data" = .ok d)
    (ht : getProp b "timestamp" = .ok t) :
    validateNonCompressed b = .ok (truthy d && truthy t) := by
  obtain ⟨v₁, h₁⟩ := getProp_ok_of_ok hd "data_shape"
  obtain ⟨v₂, h₂⟩ := getProp_ok_of_ok hd "data_type"
  simp only [validateNonCompressed, hd, ht, h₁, h₂]
  cases truthy d <;> cases truthy t <;> rfl

/-- On a body whose properties can be read, the validation of `processCompressed` is the
conjunction of the truthiness of `compressed_data` and of `timestamp`. -/
theorem validateCompressed_eq {b d t : JsVal} (hd : getProp b "compressed_data" = .ok d)
    (ht : getProp b "timestamp" = .ok t) :
    validateCompressed b = .ok (truthy d && truthy t) := by
  obtain ⟨v₁, h₁⟩ := getProp_ok_of_ok hd "compressed_size"
  obtain ⟨v₂, h₂⟩ := getProp_ok_of_ok hd "compression_type"
  simp only [validateCompressed, hd, ht, h₁, h₂]
  cases truthy d <;> cases truthy t <;> rfl

/-- A body that passed the validation of `processNonCompressed` has a truthy `data` and a truthy
`timestamp`. -/
theorem of_validateNonCompressed {b : JsVal} (h : validateNonCompressed b = .ok true) :
    ∃ d t, getProp b "data" = .ok d ∧ getProp b "timestamp" = .ok t ∧
      truthy d = true ∧ truthy t = true := by
  cases hts : getProp b "timestamp" with
  | error e => simp [validateNonCompressed, hts] at h
  | ok t =>
    obtain ⟨d, hd⟩ := getProp_ok_of_ok hts "data"
    rw [validateNonCompressed_eq hd hts] at h
    refine ⟨d, t, hd, rfl, ?_⟩
    simpa using h

/-- A body that passed the validation of `processCompressed` has a truthy `compressed_data` and a
truthy `timestamp`. -/
theorem of_validateCompressed {b : JsVal} (h : validateCompressed b = .ok true) :
    ∃ d t, getProp b "compressed_data" = .ok d ∧ getProp b "timestamp" = .ok t ∧
      truthy d = true ∧ truthy t = true := by
  cases hts : getProp b "timestamp" with
  | error e => simp [validateCompressed, hts] at h
  | ok t =>
    obtain ⟨d, hd⟩ := getProp_ok_of_ok hts "compressed_data"
    rw [validateCompressed_eq hd hts] at h
    refine ⟨d, t, hd, rfl, ?_⟩
    simpa using h

/-! ## `processNonCompressed` -/

/-- C1: a request to `processNonCompressed` whose body lacks `data` or lacks `timestamp` is
answered with exactly one response, HTTP 400 with body
`{success:false, error:"Missing required fields: data and timestamp"}`, whatever the environment,
the discovery API and the receiver would answer; the resolver instance is left as it was and no
outbound call (to the discovery API or to the receiver) is issued. -/
theorem processNonCompressed_missing_field (config : FirebaseConfig) (w : World)
    (request : Request)
    (h : getProp request.body "data" = .ok .undefined ∨
      getProp request.body "timestamp" = .ok .undefined) :
    processNonCompressed config w request =
      { sent := [{ status := 400,
                   body := .obj [("success", .bool false),
                                 ("error", .str "Missing required fields: data and timestamp")] }],
        config := config, calls := [] } := by
  have hv : validateNonCompressed request.body = .ok false := by
    rcases h with h | h
    · obtain ⟨t, ht⟩ := getProp_ok_of_ok h "timestamp"
      rw [validateNonCompressed_eq h ht]; rfl
    · obtain ⟨d, hd⟩ := getProp_ok_of_ok h "data"
      rw [validateNonCompressed_eq hd h]; simp [truthy]
  simp [processNonCompressed, hv, HandlerResult.send]

/-- Witness of C1 on the body `{timestamp:"t"}`, with a receiver that would answer. -/
theorem processNonCompressed_missing_field_witness :
    processNonCompressed FirebaseConfig.new
        { env := none, discovery := .ok (.obj []), receiver := .ok (.obj []), now := "" }
        { body := .obj [("timestamp", .str "t")] } =
      { sent := [{ status := 400,
                   body := .obj [("success", .bool false),
                                 ("error", .str "Missing required fields: data and timestamp")] }],
        config := FirebaseConfig.new, calls := [] } :=
  processNonCompressed_missing_field _ _ _ (Or.inl rfl)

/-- C2: when the body passes validation and the POST to the receiver (to the URL built from the
resolved endpoint) succeeds with body `b`, `processNonCompressed` sends exactly one response:
HTTP 200 with body `{success:true, message:"Non-compressed data processed successfully",
timestamp: <the request's timestamp>, data_type:"non_compressed", receiver_response: b}`. -/
theorem processNonCompressed_success (config : FirebaseConfig) (w : World) (request : Request)
    (t b : JsVal) (url : String) (hv : validateNonCompressed request.body = .ok true)
    (ht : getProp request.body "timestamp" = .ok t)
    (hurl : toStr (config.getReceiverUrl w.env w.discovery).value = .ok url)
    (hr : w.receiver = .ok b) :
    (processNonCompressed config w request).sent =
      [{ status := 200,
         body := .obj [("success", .bool true),
                       ("message", .str "Non-compressed data processed successfully"),
                       ("timestamp", t),
                       ("data_type", .str "non_compressed"),
                       ("receiver_response", b)] }] := by
  simp [processNonCompressed, hv, hurl, hr, ht, HandlerResult.send]

/-- Witness of C2: the body `{data:[1,2,3], timestamp:"2024-01-01T00:00:00Z"}` with a receiver
answering `{ok:true}`. -/
theorem processNonCompressed_success_witness :
    (processNonCompressed FirebaseConfig.new
        { env := none, discovery := .error { code := some "ECONNREFUSED", message := "refused" },
          receiver := .ok (.obj [("ok", .bool true)]), now := "" }
        { body := .obj [("data", .arr [.num 1, .num 2, .num 3]),
                        ("timestamp", .str "2024-01-01T00:00:00Z")] }).sent =
      [{ status := 200,
         body := .obj [("success", .bool true),
                       ("message", .str "Non-compressed data processed successfully"),
                       ("timestamp", .str "2024-01-01T00:00:00Z"),
                       ("data_type", .str "non_compressed"),
                       ("receiver_response", .obj [("ok", .bool true)])] }] :=
  processNonCompressed_success _ _ _ _ _ "http://106.222.138.233:5000" rfl rfl rfl rfl

/-- C3, as stated, fails: in the body `{data:[1,2,3], timestamp:0}` both keys are present and
non-null, yet `processNonCompressed` answers HTTP 400 and forwards nothing. -/
theorem processNonCompressed_rejects_zero_timestamp :
    getProp (.obj [("data", .arr [.num 1, .num 2, .num 3]), ("timestamp", .num 0)]) "data" =
        .ok (.arr [.num 1, .num 2, .num 3]) ∧
      getProp (.obj [("data", .arr [.num 1, .num 2, .num 3]), ("timestamp", .num 0)]) "timestamp" =
        .ok (.num 0) ∧
      processNonCompressed FirebaseConfig.new
          { env := none, discovery := .ok (.obj []), receiver := .ok (.obj []), now := "" }
          { body := .obj [("data", .arr [.num 1, .num 2, .num 3]), ("timestamp", .num 0)] } =
        { sent := [{ status := 400,
                     body := .obj [("success", .bool false),
                                   ("error", .str "Missing required fields: data and timestamp")] }],
          config := FirebaseConfig.new, calls := [] } :=
  ⟨rfl, rfl, rfl⟩

/-- C3, amended: on a body whose properties can be read, `processNonCompressed` answers HTTP 400
if and only if `data` or `timestamp` is falsy (absent, `null`, `false`, `0` or the empty string);
a rejected request issues no outbound call; and every body in which both values are truthy passes
validation whatever their shape and, whenever the resolved endpoint converts to a string `url`
(as every string endpoint does), is forwarded unchanged in a POST to
`url/process_non_compressed`. -/
theorem processNonCompressed_rejects_iff_falsy (config : FirebaseConfig) (w : World)
    (request : Request) (d t : JsVal) (hd : getProp request.body "data" = .ok d)
    (ht : getProp request.body "timestamp" = .ok t) :
    ((processNonCompressed config w request).sent.map Response.status = [400] ↔
        (truthy d = false ∨ truthy t = false)) ∧
      ((truthy d = false ∨ truthy t = false) →
        (processNonCompressed config w request).calls = []) ∧
      (truthy d = true → truthy t = true →
        validateNonCompressed request.body = .ok true ∧
        ∀ url, toStr (config.getReceiverUrl w.env w.discovery).value = .ok url →
          (processNonCompressed config w request).calls =
            (config.getReceiverUrl w.env w.discovery).calls ++
              [Call.post (url ++ "/process_non_compressed") request.body
                "application/json" 30000]) := by
  have hv := validateNonCompressed_eq hd ht
  cases hd' : truthy d <;> cases ht' : truthy t <;> simp only [hd', ht'] at hv <;>
    try (simp [processNonCompressed, hv, HandlerResult.send]; done)
  simp only [Bool.and_self] at hv
  have hcatch : ∀ (r : HandlerResult) (e : JsError), r.sent = [] →
      ((match ((r, some e) : HandlerResult × Option JsError) with
        | (result, none) => result
        | (result, some error) =>
          if error.code = some "ECONNREFUSED" ∨ error.code = some "ENOTFOUND" then
            result.send 503 (.obj [("success", .bool false),
                                   ("error", .str "Receiver service unavailable"),
                                   ("details", .str "Cannot connect to the model receiver")])
          else if error.code = some "ECONNABORTED" then
            result.send 504 (.obj [("success", .bool false),
                                   ("error", .str "Request timeout"),
                                   ("details", .str "Receiver took too long to respond")])
          else
            result.send 500 (.obj [("success", .bool false),
                                   ("error", .str "Internal server error"),
                                   ("details", .str error.message)])).sent.map Response.status
          ≠ [400]) := by
    intro r e hr
    by_cases h₁ : e.code = some "ECONNREFUSED" ∨ e.code = some "ENOTFOUND" <;>
      by_cases h₂ : e.code = some "ECONNABORTED" <;>
      simp [h₁, h₂, HandlerResult.send, hr]
  refine ⟨?_, ?_, ?_⟩
  · refine ⟨fun h => ?_, fun h => by simp at h⟩
    exfalso
    revert h
    rcases hurl : toStr (config.getReceiverUrl w.env w.discovery).value with e | url
    · simp only [processNonCompressed, hv, hurl]
      exact hcatch _ e rfl
    · rcases hr : w.receiver with e | b
      · simp only [processNonCompressed, hv, hurl, hr]
        exact hcatch _ e rfl
      · simp [processNonCompressed, hv, hurl, hr, ht, HandlerResult.send]
  · intro h; simp at h
  · intro _ _
    refine ⟨hv, fun url hurl => ?_⟩
    rcases hr : w.receiver with e | b
    · by_cases h₁ : e.code = some "ECONNREFUSED" ∨ e.code = some "ENOTFOUND" <;>
        by_cases h₂ : e.code = some "ECONNABORTED" <;>
        simp [processNonCompressed, hv, hurl, hr, h₁, h₂, HandlerResult.send,
          FirebaseConfig.TIMEOUT]
    · simp [processNonCompressed, hv, hurl, hr, ht, HandlerResult.send, FirebaseConfig.TIMEOUT]

/-- Witness of the amended C3 on the body `{data:[1,2,3], timestamp:0}`. -/
theorem processNonCompressed_rejects_iff_falsy_witness :
    (processNonCompressed FirebaseConfig.new
        { env := none, discovery := .ok (.obj []), receiver := .ok (.obj []), now := "" }
        { body := .obj [("data", .arr [.num 1, .num 2, .num 3]),
                        ("timestamp", .num 0)] }).sent.map Response.status = [400] :=
  (processNonCompressed_rejects_iff_falsy FirebaseConfig.new
    { env := none, discovery := .ok (.obj []), receiver := .ok (.obj []), now := "" }
    { body := .obj [("data", .arr [.num 1, .num 2, .num 3]), ("timestamp", .num 0)] }
    (.arr [.num 1, .num 2, .num 3]) (.num 0) rfl rfl).1.2 (Or.inr rfl)

/-! ## Classification of forwarding failures -/

/-- C4: for a request that passed validation in `processNonCompressed` or in `processCompressed`,
when the forwarding step fails with error `e` (the URL of the POST cannot be built, or the POST
itself fails) the handler sends exactly one response, whose body has `success:false` and whose
status is decided by `e.code`: 503 for `ECONNREFUSED` or `ENOTFOUND`, 504 for `ECONNABORTED`, and
otherwise 500 with `details` equal to `e.message`. -/
theorem forwarding_failure_classified (config : FirebaseConfig) (w : World) (request : Request)
    (e : JsError) (sent : List Response)
    (hfail : toStr (config.getReceiverUrl w.env w.discovery).value = .error e ∨
      ((∃ url, toStr (config.getReceiverUrl w.env w.discovery).value = .ok url) ∧
        w.receiver = .error e))
    (hs : (validateNonCompressed request.body = .ok true ∧
          sent = (processNonCompressed config w request).sent) ∨
        (validateCompressed request.body = .ok true ∧
          sent = (processCompressed config w request).sent)) :
    ∃ r, sent = [r] ∧ getProp r.body "success" = .ok (.bool false) ∧
      ((e.code = some "ECONNREFUSED" ∨ e.code = some "ENOTFOUND") → r.status = 503) ∧
      (e.code = some "ECONNABORTED" → r.status = 504) ∧
      (¬ (e.code = some "ECONNREFUSED" ∨ e.code = some "ENOTFOUND") →
        e.code ≠ some "ECONNABORTED" →
        r.status = 500 ∧ getProp r.body "details" = .ok (.str e.message)) := by
  have key : sent =
      (if e.code = some "ECONNREFUSED" ∨ e.code = some "ENOTFOUND" then
        [{ status := 503,
           body := .obj [("success", .bool false),
                         ("error", .str "Receiver service unavailable"),
                         ("details", .str "Cannot connect to the model receiver")] }]
      else if e.code = some "ECONNABORTED" then
        [{ status := 504,
           body := .obj [("success", .bool false),
                         ("error", .str "Request timeout"),
                         ("details", .str "Receiver took too long to respond")] }]
      else
        [{ status := 500,
           body := .obj [("success", .bool false),
                         ("error", .str "Internal server error"),
                         ("details", .str e.message)] }]) := by
    rcases hs with ⟨hv, rfl⟩ | ⟨hv, rfl⟩ <;> rcases hfail with hurl | ⟨⟨url, hurl⟩, hr⟩
    · by_cases h₁ : e.code = some "ECONNREFUSED" ∨ e.code = some "ENOTFOUND" <;>
        by_cases h₂ : e.code = some "ECONNABORTED" <;>
        simp [processNonCompressed, hv, hurl, h₁, h₂, HandlerResult.send]
    · by_cases h₁ : e.code = some "ECONNREFUSED" ∨ e.code = some "ENOTFOUND" <;>
        by_cases h₂ : e.code = some "ECONNABORTED" <;>
        simp [processNonCompressed, hv, hurl, hr, h₁, h₂, HandlerResult.send]
    · by_cases h₁ : e.code = some "ECONNREFUSED" ∨ e.code = some "ENOTFOUND" <;>
        by_cases h₂ : e.code = some "ECONNABORTED" <;>
        simp [processCompressed, hv, hurl, h₁, h₂, HandlerResult.send]
    · by_cases h₁ : e.code = some "ECONNREFUSED" ∨ e.code = some "ENOTFOUND" <;>
        by_cases h₂ : e.code = some "ECONNABORTED" <;>
        simp [processCompressed, hv, hurl, hr, h₁, h₂, HandlerResult.send]
  by_cases h₁ : e.code = some "ECONNREFUSED" ∨ e.code = some "ENOTFOUND"
  · rw [if_pos h₁] at key
    refine ⟨_, key, rfl, fun _ => rfl, ?_, fun h => absurd h₁ h⟩
    intro h₂
    rcases h₁ with h₁ | h₁ <;> rw [h₁] at h₂ <;> simp at h₂
  · rw [if_neg h₁] at key
    by_cases h₂ : e.code = some "ECONNABORTED"
    · rw [if_pos h₂] at key
      exact ⟨_, key, rfl, fun h => absurd h h₁, fun _ => rfl, fun _ h => absurd h₂ h⟩
    · rw [if_neg h₂] at key
      exact ⟨_, key, rfl, fun h => absurd h h₁, fun h => absurd h h₂, fun _ _ => ⟨rfl, rfl⟩⟩

/-- Witness of C4: a valid non-compressed request whose receiver refuses the connection is
answered with HTTP 503. -/
theorem forwarding_failure_classified_witness :
    ∃ r, (processNonCompressed FirebaseConfig.new
        { env := some "http://receiver:5000", discovery := .ok (.obj []),
          receiver := .error { code := some "ECONNREFUSED", message := "connect ECONNREFUSED" },
          now := "" }
        { body := .obj [("data", .arr [.num 1]), ("timestamp", .str "t")] }).sent = [r] ∧
      r.status = 503 := by
  obtain ⟨r, h, -, h503, -⟩ := forwarding_failure_classified FirebaseConfig.new
    { env := some "http://receiver:5000", discovery := .ok (.obj []),
      receiver := .error { code := some "ECONNREFUSED", message := "connect ECONNREFUSED" },
      now := "" }
    { body := .obj [("data", .arr [.num 1]), ("timestamp", .str "t")] }
    { code := some "ECONNREFUSED", message := "connect ECONNREFUSED" } _
    (Or.inr ⟨⟨"http://receiver:5000", rfl⟩, rfl⟩) (Or.inl ⟨rfl, rfl⟩)
  exact ⟨r, h, h503 (Or.inl rfl)⟩

/-! ## The resolver `getReceiverUrl` -/

/-- With a non-empty override `u`, a call on an instance whose cache is `null` or `u` returns
`u`, caches it and issues no call. -/
theorem getReceiverUrl_override_step (u : String) (hu : u ≠ "") (c : FirebaseConfig)
    (h : c._receiverUrl = .null ∨ c._receiverUrl = .str u) (discovery : Except JsError JsVal) :
    c.getReceiverUrl (some u) discovery =
      { value := .str u, config := { _receiverUrl := .str u }, calls := [] } := by
  obtain ⟨url⟩ := c
  rcases h with h | h <;> simp only at h <;> subst h <;>
    simp [FirebaseConfig.getReceiverUrl, truthy, envValue, hu]

/-- With a non-empty override, the cached value of every instance reached from a fresh one is
`null` or the override. -/
theorem afterCalls_override (u : String) (hu : u ≠ "")
    (outcomes : List (Except JsError JsVal)) :
    (afterCalls (some u) outcomes)._receiverUrl = .null ∨
      (afterCalls (some u) outcomes)._receiverUrl = .str u := by
  induction outcomes using List.reverseRecOn with
  | nil => exact Or.inl rfl
  | append_singleton ds d ih =>
    right
    have hstep : afterCalls (some u) (ds ++ [d]) =
        ((afterCalls (some u) ds).getReceiverUrl (some u) d).config := by
      simp [afterCalls]
    rw [hstep, getReceiverUrl_override_step u hu _ ih]

/-- C5: with the override `RECEIVER_URL` set to a (non-empty) string `u`, in every state the
resolver instance can be in (a fresh instance after any number of earlier calls, whatever the
discovery API answered them), `getReceiverUrl` returns exactly `u` and issues no call to the
discovery API, whatever the discovery API would answer. -/
theorem getReceiverUrl_override (u : String) (hu : u ≠ "")
    (outcomes : List (Except JsError JsVal)) (discovery : Except JsError JsVal) :
    ((afterCalls (some u) outcomes).getReceiverUrl (some u) discovery).value = .str u ∧
      ((afterCalls (some u) outcomes).getReceiverUrl (some u) discovery).calls = [] := by
  rw [getReceiverUrl_override_step u hu _ (afterCalls_override u hu outcomes)]
  exact ⟨rfl, rfl⟩

/-- Witness of C5: a fresh instance, the override `http://receiver:5000`, and a discovery API
that is reachable and reports a tunnel. -/
theorem getReceiverUrl_override_witness :
    (FirebaseConfig.new.getReceiverUrl (some "http://receiver:5000")
        (.ok (.obj [("tunnels", .arr [.obj [("public_url", .str "https://t.ngrok.io")]])]))).value =
        .str "http://receiver:5000" ∧
      (FirebaseConfig.new.getReceiverUrl (some "http://receiver:5000")
        (.ok (.obj [("tunnels", .arr [.obj [("public_url", .str "https://t.ngrok.io")]])]))).calls =
        [] :=
  getReceiverUrl_override "http://receiver:5000" (by decide) [] _

/-- The `try` block of `getReceiverUrl` on a tunnel list with a first record whose `public_url`
can be read: the block returns that `public_url`. -/
theorem discoverTunnel_first {data first url : JsVal} {rest : List JsVal}
    (ht : getProp data "tunnels" = .ok (.arr (first :: rest)))
    (hu : getProp first "public_url" = .ok url) :
    discoverTunnel (.ok data) = .ok (some url) := by
  have hlen : getProp (.arr (first :: rest)) "length" = .ok (.num ((first :: rest).length)) := rfl
  have hidx : getProp (.arr (first :: rest)) "0" = .ok first := rfl
  have hpos : gtZero (.num ((first :: rest).length)) = .ok true := by
    simp only [gtZero, List.length_cons]
    exact congrArg Except.ok (decide_eq_true (by omega))
  simp only [discoverTunnel, ht, truthy, hlen, hpos, hidx, hu, if_true]

/-- C6: on a fresh resolver with no override configured (`RECEIVER_URL` unset or empty): if the
discovery probe succeeds and its tunnel list has a first record, `getReceiverUrl` returns the
`public_url` of that first record, whatever the other records are; if the probe fails, or succeeds
with an absent, `null` or empty tunnel list, it returns the fallback
`http://106.222.138.233:5000`. -/
theorem getReceiverUrl_fresh_no_override (env : Option String)
    (henv : env = none ∨ env = some "") (discovery : Except JsError JsVal) :
    (∀ data first rest url, discovery = .ok data →
        getProp data "tunnels" = .ok (.arr (first :: rest)) →
        getProp first "public_url" = .ok url →
        (FirebaseConfig.new.getReceiverUrl env discovery).value = url) ∧
      (∀ e, discovery = .error e →
        (FirebaseConfig.new.getReceiverUrl env discovery).value =
          .str "http://106.222.138.233:5000") ∧
      (∀ data tunnels, discovery = .ok data → getProp data "tunnels" = .ok tunnels →
        (tunnels = .undefined ∨ tunnels = .null ∨ tunnels = .arr []) →
        (FirebaseConfig.new.getReceiverUrl env discovery).value =
          .str "http://106.222.138.233:5000") := by
  have hfresh : truthy FirebaseConfig.new._receiverUrl = false := rfl
  have hov : truthy (envValue env) = false := by
    rcases henv with h | h <;> subst h <;> rfl
  refine ⟨?_, ?_, ?_⟩
  · intro data first rest url hd ht hu
    subst hd
    simp [FirebaseConfig.getReceiverUrl, hfresh, hov, discoverTunnel_first ht hu]
  · intro e hd
    subst hd
    simp [FirebaseConfig.getReceiverUrl, hfresh, hov, discoverTunnel, fallbackUrl]
  · intro data tunnels hd ht hcase
    subst hd
    have hnone : discoverTunnel (.ok data) = .ok none := by
      rcases hcase with h | h | h <;> subst h
      · simp [discoverTunnel, ht, truthy]
      · simp [discoverTunnel, ht, truthy]
      · have hlen : getProp (.arr []) "length" = .ok (.num 0) := rfl
        have hz : gtZero (.num 0) = .ok false := rfl
        simp [discoverTunnel, ht, truthy, hlen, hz]
    simp [FirebaseConfig.getReceiverUrl, hfresh, hov, hnone, fallbackUrl]

/-- Witness of C6: no override, and a discovery API reporting two tunnels; the first tunnel's
`public_url` is returned. -/
theorem getReceiverUrl_fresh_no_override_witness :
    (FirebaseConfig.new.getReceiverUrl none
        (.ok (.obj [("tunnels", .arr [.obj [("public_url", .str "https://a.ngrok.io")],
                                      .obj [("public_url", .str "https://b.ngrok.io")]])]))).value =
      .str "https://a.ngrok.io" :=
  (getReceiverUrl_fresh_no_override none (Or.inl rfl) _).1 _ _ _ _ rfl rfl rfl

/-- C7 fails on the code: with no override, when the first probe reports a tunnel record without
`public_url` and the second probe is refused, the first call of `getReceiverUrl` returns
`undefined`, the second call on the same instance returns the fallback URL, and the discovery API
is probed twice. -/
theorem getReceiverUrl_twice_reprobes :
    (FirebaseConfig.new.getReceiverUrl none
        (.ok (.obj [("tunnels", .arr [.obj [("name", .str "command_line")]])]))).value =
        .undefined ∧
      ((FirebaseConfig.new.getReceiverUrl none
          (.ok (.obj [("tunnels", .arr [.obj [("name", .str "command_line")]])]))).config.getReceiverUrl
        none (.error { code := some "ECONNREFUSED", message := "connect ECONNREFUSED" })).value =
        .str "http://106.222.138.233:5000" ∧
      (FirebaseConfig.new.getReceiverUrl none
          (.ok (.obj [("tunnels", .arr [.obj [("name", .str "command_line")]])]))).calls ++
        ((FirebaseConfig.new.getReceiverUrl none
          (.ok (.obj [("tunnels", .arr [.obj [("name", .str "command_line")]])]))).config.getReceiverUrl
        none (.error { code := some "ECONNREFUSED", message := "connect ECONNREFUSED" })).calls =
        [Call.get "http://localhost:4040/api/tunnels" 2000,
         Call.get "http://localhost:4040/api/tunnels" 2000] :=
  ⟨rfl, rfl, rfl⟩

/-- C8 fails on the code: with no override, on a fresh instance, a discovery answer whose first
tunnel record has no `public_url` makes `getReceiverUrl` return `undefined`, and one whose first
record has an empty `public_url` makes it return the empty string; neither is a non-empty URL. -/
theorem getReceiverUrl_returns_no_url :
    (FirebaseConfig.new.getReceiverUrl none (.ok (.obj [("tunnels", .arr [.obj []])]))).value =
        .undefined ∧
      (FirebaseConfig.new.getReceiverUrl none
        (.ok (.obj [("tunnels", .arr [.obj [("public_url", .str "")]])]))).value = .str "" :=
  ⟨rfl, rfl⟩

/-! ## `processCompressed` and `health` -/

/-- On a body that cannot be read (`undefined` or `null`), both forwarding handlers answer with
a single response of status 500. -/
theorem handlers_agree_of_unreadable (config : FirebaseConfig) (w : World) (n c : Request)
    (e₁ e₂ : JsError) (hn : getProp n.body "timestamp" = .error e₁)
    (hc : getProp c.body "timestamp" = .error e₂) :
    (processCompressed config w c).sent.map Response.status = [500] ∧
      (processNonCompressed config w n).sent.map Response.status = [500] := by
  have hcode : ∀ (b : JsVal) (e : JsError), getProp b "timestamp" = .error e → e.code = none := by
    intro b e h
    cases b with
    | undefined => simp only [getProp, Except.error.injEq] at h; subst h; rfl
    | null => simp only [getProp, Except.error.injEq] at h; subst h; rfl
    | bool _ => simp [getProp] at h
    | num _ => simp [getProp] at h
    | obj _ => simp [getProp] at h
    | str s => obtain ⟨v, hv⟩ := getProp_ok_of_ok (b := .str s) (k := "length") rfl "timestamp"
               rw [hv] at h; cases h
    | arr s => obtain ⟨v, hv⟩ := getProp_ok_of_ok (b := .arr s) (k := "length") rfl "timestamp"
               rw [hv] at h; cases h
  have h₁ := hcode _ _ hn
  have h₂ := hcode _ _ hc
  constructor
  · simp [processCompressed, validateCompressed, hc, h₂, HandlerResult.send]
  · simp [processNonCompressed, validateNonCompressed, hn, h₁, HandlerResult.send]

/-- C9: `processCompressed` has the contract of `processNonCompressed` with `compressed_data` for
`data`, `/process_compressed` for `/process_non_compressed` and `"compressed"` for
`"non_compressed"`.  On bodies that correspond under the renaming of the required field, and for
every environment, discovery outcome and receiver outcome, the two handlers send responses with
the same HTTP statuses and the same failure classes; a body lacking `compressed_data` or
`timestamp` gets HTTP 400 with `success:false` and nothing is forwarded; and a valid body whose
POST to `url/process_compressed`, `url` being the resolved endpoint as a string, succeeds with
body `b` gets HTTP 200 with `success:true`, `data_type:"compressed"`, the request's `timestamp`
and `receiver_response: b`. -/
theorem processCompressed_same_contract (config : FirebaseConfig) (w : World) (n c : Request)
    (hcorr : Corresponds n.body c.body) :
    (processCompressed config w c).sent.map Response.status =
        (processNonCompressed config w n).sent.map Response.status ∧
      (processCompressed config w c).sent.map failureClass =
        (processNonCompressed config w n).sent.map failureClass ∧
      ((getProp c.body "compressed_data" = .ok .undefined ∨
          getProp c.body "timestamp" = .ok .undefined) →
        processCompressed config w c =
          { sent := [{ status := 400,
                       body := .obj [("success", .bool false),
                                     ("error", .str
                                       "Missing required fields: compressed_data and timestamp")] }],
            config := config, calls := [] }) ∧
      (∀ t b url, validateCompressed c.body = .ok true → getProp c.body "timestamp" = .ok t →
        toStr (config.getReceiverUrl w.env w.discovery).value = .ok url →
        w.receiver = .ok b →
        processCompressed config w c =
          { sent := [{ status := 200,
                       body := .obj [("success", .bool true),
                                     ("message", .str "Compressed data processed successfully"),
                                     ("timestamp", t),
                                     ("data_type", .str "compressed"),
                                     ("receiver_response", b)] }],
            config := (config.getReceiverUrl w.env w.discovery).config,
            calls := (config.getReceiverUrl w.env w.discovery).calls ++
              [Call.post (url ++ "/process_compressed") c.body "application/json" 30000] }) := by
  have hstatus : (processCompressed config w c).sent.map Response.status =
      (processNonCompressed config w n).sent.map Response.status := by
    obtain ⟨hdata, hts⟩ := hcorr
    cases hnt : getProp n.body "timestamp" with
    | error e₁ =>
      cases hct : getProp c.body "timestamp" with
      | ok t => rw [hnt, hct] at hts; cases hts
      | error e₂ =>
        obtain ⟨h₁, h₂⟩ := handlers_agree_of_unreadable config w n c e₁ e₂ hnt hct
        rw [h₁, h₂]
    | ok t =>
      cases hct : getProp c.body "timestamp" with
      | error e₂ => rw [hnt, hct] at hts; cases hts
      | ok t' =>
        rw [hnt, hct] at hts
        obtain rfl : t = t' := by simpa [Except.toOption] using hts
        obtain ⟨d, hnd⟩ := getProp_ok_of_ok hnt "data"
        obtain ⟨d', hcd⟩ := getProp_ok_of_ok hct "compressed_data"
        rw [hnd, hcd] at hdata
        obtain rfl : d = d' := by simpa [Except.toOption] using hdata
        have hvn := validateNonCompressed_eq hnd hnt
        have hvc := validateCompressed_eq hcd hct
        cases hv : (truthy d && truthy t) <;> rw [hv] at hvn hvc
        · simp [processCompressed, processNonCompressed, hvn, hvc, HandlerResult.send]
        · rcases hurl : toStr (config.getReceiverUrl w.env w.discovery).value with e | url
          · by_cases h₁ : e.code = some "ECONNREFUSED" ∨ e.code = some "ENOTFOUND" <;>
              by_cases h₂ : e.code = some "ECONNABORTED" <;>
              simp [processCompressed, processNonCompressed, hvn, hvc, hurl, h₁, h₂,
                HandlerResult.send]
          · rcases hr : w.receiver with e | b
            · by_cases h₁ : e.code = some "ECONNREFUSED" ∨ e.code = some "ENOTFOUND" <;>
                by_cases h₂ : e.code = some "ECONNABORTED" <;>
                simp [processCompressed, processNonCompressed, hvn, hvc, hurl, hr, h₁, h₂,
                  HandlerResult.send]
            · simp [processCompressed, processNonCompressed, hvn, hvc, hurl, hr, hnt, hct,
                HandlerResult.send]
  refine ⟨hstatus, ?_, ?_, ?_⟩
  · have h := congrArg (List.map (fun s : Nat => failureClass { status := s, body := .null }))
      hstatus
    simpa [List.map_map, Function.comp_def, failureClass] using h
  · intro h
    have hv : validateCompressed c.body = .ok false := by
      rcases h with h | h
      · obtain ⟨t, ht⟩ := getProp_ok_of_ok h "timestamp"
        rw [validateCompressed_eq h ht]; rfl
      · obtain ⟨d, hd⟩ := getProp_ok_of_ok h "compressed_data"
        rw [validateCompressed_eq hd h]; simp [truthy]
    simp [processCompressed, hv, HandlerResult.send]
  · intro t b url hv ht hurl hr
    simp [processCompressed, hv, ht, hurl, hr, HandlerResult.send, FirebaseConfig.TIMEOUT]

/-- Witness of C9: the bodies `{data:[1], timestamp:"t"}` and `{compressed_data:[1],
timestamp:"t"}` correspond, and both handlers answer with the same status when the receiver
times out. -/
theorem processCompressed_same_contract_witness :
    (processCompressed FirebaseConfig.new
        { env := none, discovery := .ok (.obj []),
          receiver := .error { code := some "ECONNABORTED", message := "timeout of 30000ms exceeded" },
          now := "" }
        { body := .obj [("compressed_data", .arr [.num 1]), ("timestamp", .str "t")] }).sent.map
          Response.status =
      (processNonCompressed FirebaseConfig.new
        { env := none, discovery := .ok (.obj []),
          receiver := .error { code := some "ECONNABORTED", message := "timeout of 30000ms exceeded" },
          now := "" }
        { body := .obj [("data", .arr [.num 1]), ("timestamp", .str "t")] }).sent.map
          Response.status :=
  (processCompressed_same_contract FirebaseConfig.new _
    { body := .obj [("data", .arr [.num 1]), ("timestamp", .str "t")] }
    { body := .obj [("compressed_data", .arr [.num 1]), ("timestamp", .str "t")] }
    ⟨rfl, rfl⟩).1

/-- C10: the health handler has exactly two outcomes.  When the GET to `url/health`, `url` being
the resolved endpoint as a string, succeeds with body `b` it sends HTTP 200 with
`{status:"healthy", timestamp: now, receiver_status:"connected", receiver_response: b}`; for
every failure `e` (of the GET, or of the conversion of the endpoint to a string), whatever
`e.code` is, it sends HTTP 503 with `{status:"unhealthy", timestamp: now,
receiver_status:"disconnected", error: e.message}`. -/
theorem health_two_outcomes (config : FirebaseConfig) (w : World) (request : Request) :
    (∀ url b, toStr (config.getReceiverUrl w.env w.discovery).value = .ok url →
        w.receiver = .ok b →
        (health config w request).sent =
          [{ status := 200,
             body := .obj [("status", .str "healthy"),
                           ("timestamp", .str w.now),
                           ("receiver_status", .str "connected"),
                           ("receiver_response", b)] }]) ∧
      (∀ e, (toStr (config.getReceiverUrl w.env w.discovery).value = .error e ∨
          ((∃ url, toStr (config.getReceiverUrl w.env w.discovery).value = .ok url) ∧
            w.receiver = .error e)) →
        (health config w request).sent =
          [{ status := 503,
             body := .obj [("status", .str "unhealthy"),
                           ("timestamp", .str w.now),
                           ("receiver_status", .str "disconnected"),
                           ("error", .str e.message)] }]) := by
  refine ⟨fun url b hurl hr => ?_, fun e h => ?_⟩
  · simp [health, hurl, hr, HandlerResult.send]
  · rcases h with hurl | ⟨⟨url, hurl⟩, hr⟩
    · simp [health, hurl, HandlerResult.send]
    · simp [health, hurl, hr, HandlerResult.send]

/-- Witness of C10: with the override `http://receiver:5000`, a receiver answering
`{status:"ok"}` gets the healthy response, and a refused connection gets the unhealthy one. -/
theorem health_two_outcomes_witness :
    (health FirebaseConfig.new
        { env := some "http://receiver:5000", discovery := .ok (.obj []),
          receiver := .ok (.obj [("status", .str "ok")]), now := "2024-01-01T00:00:00.000Z" }
        { body := .undefined }).sent =
        [{ status := 200,
           body := .obj [("status", .str "healthy"),
                         ("timestamp", .str "2024-01-01T00:00:00.000Z"),
                         ("receiver_status", .str "connected"),
                         ("receiver_response", .obj [("status", .str "ok")])] }] ∧
      (health FirebaseConfig.new
        { env := some "http://receiver:5000", discovery := .ok (.obj []),
          receiver := .error { code := some "ECONNREFUSED", message := "connect ECONNREFUSED" },
          now := "2024-01-01T00:00:00.000Z" }
        { body := .undefined }).sent =
        [{ status := 503,
           body := .obj [("status", .str "unhealthy"),
                         ("timestamp", .str "2024-01-01T00:00:00.000Z"),
                         ("receiver_status", .str "disconnected"),
                         ("error", .str "connect ECONNREFUSED")] }] :=
  ⟨(health_two_outcomes FirebaseConfig.new
      { env := some "http://receiver:5000", discovery := .ok (.obj []),
        receiver := .ok (.obj [("status", .str "ok")]), now := "2024-01-01T00:00:00.000Z" }
      { body := .undefined }).1 "http://receiver:5000" _ rfl rfl,
    (health_two_outcomes FirebaseConfig.new
      { env := some "http://receiver:5000", discovery := .ok (.obj []),
        receiver := .error { code := some "ECONNREFUSED", message := "connect ECONNREFUSED" },
        now := "2024-01-01T00:00:00.000Z" }
      { body := .undefined }).2 { code := some "ECONNREFUSED", message := "connect ECONNREFUSED" }
      (Or.inr ⟨⟨"http://receiver:5000", rfl⟩, rfl⟩)⟩

/-! ## Every run of a forwarding handler sends one response -/

/-- The single response of `processNonCompressed`: either 200 with `success:true`, or one of
400, 503, 504, 500 with `success:false`. -/
theorem processNonCompressed_response_shape (config : FirebaseConfig) (w : World)
    (request : Request) :
    ∃ r, (processNonCompressed config w request).sent = [r] ∧
      ((r.status = 200 ∧ getProp r.body "success" = .ok (.bool true)) ∨
        ((r.status = 400 ∨ r.status = 503 ∨ r.status = 504 ∨ r.status = 500) ∧
          getProp r.body "success" = .ok (.bool false))) := by
  cases hv : validateNonCompressed request.body with
  | error e =>
    by_cases h₁ : e.code = some "ECONNREFUSED" ∨ e.code = some "ENOTFOUND" <;>
      by_cases h₂ : e.code = some "ECONNABORTED" <;>
      simp [processNonCompressed, hv, h₁, h₂, HandlerResult.send, getProp, List.lookup]
  | ok valid =>
    cases valid with
    | false => simp [processNonCompressed, hv, HandlerResult.send, getProp, List.lookup]
    | true =>
      cases hurl : toStr (config.getReceiverUrl w.env w.discovery).value with
      | error e =>
        by_cases h₁ : e.code = some "ECONNREFUSED" ∨ e.code = some "ENOTFOUND" <;>
          by_cases h₂ : e.code = some "ECONNABORTED" <;>
          simp [processNonCompressed, hv, hurl, h₁, h₂, HandlerResult.send, getProp, List.lookup]
      | ok url =>
        cases hr : w.receiver with
        | error e =>
          by_cases h₁ : e.code = some "ECONNREFUSED" ∨ e.code = some "ENOTFOUND" <;>
            by_cases h₂ : e.code = some "ECONNABORTED" <;>
            simp [processNonCompressed, hv, hurl, hr, h₁, h₂, HandlerResult.send, getProp, List.lookup]
        | ok data =>
          obtain ⟨d, t, -, ht, -, -⟩ := of_validateNonCompressed hv
          simp only [processNonCompressed, hv, hurl, hr, ht, HandlerResult.send]
          simp [getProp, List.lookup]

/-- The single response of `processCompressed`: either 200 with `success:true`, or one of
400, 503, 504, 500 with `success:false`. -/
theorem processCompressed_response_shape (config : FirebaseConfig) (w : World)
    (request : Request) :
    ∃ r, (processCompressed config w request).sent = [r] ∧
      ((r.status = 200 ∧ getProp r.body "success" = .ok (.bool true)) ∨
        ((r.status = 400 ∨ r.status = 503 ∨ r.status = 504 ∨ r.status = 500) ∧
          getProp r.body "success" = .ok (.bool false))) := by
  cases hv : validateCompressed request.body with
  | error e =>
    by_cases h₁ : e.code = some "ECONNREFUSED" ∨ e.code = some "ENOTFOUND" <;>
      by_cases h₂ : e.code = some "ECONNABORTED" <;>
      simp [processCompressed, hv, h₁, h₂, HandlerResult.send, getProp, List.lookup]
  | ok valid =>
    cases valid with
    | false => simp [processCompressed, hv, HandlerResult.send, getProp, List.lookup]
    | true =>
      cases hurl : toStr (config.getReceiverUrl w.env w.discovery).value with
      | error e =>
        by_cases h₁ : e.code = some "ECONNREFUSED" ∨ e.code = some "ENOTFOUND" <;>
          by_cases h₂ : e.code = some "ECONNABORTED" <;>
          simp [processCompressed, hv, hurl, h₁, h₂, HandlerResult.send, getProp, List.lookup]
      | ok url =>
        cases hr : w.receiver with
        | error e =>
          by_cases h₁ : e.code = some "ECONNREFUSED" ∨ e.code = some "ENOTFOUND" <;>
            by_cases h₂ : e.code = some "ECONNABORTED" <;>
            simp [processCompressed, hv, hurl, hr, h₁, h₂, HandlerResult.send, getProp, List.lookup]
        | ok data =>
          obtain ⟨d, t, -, ht, -, -⟩ := of_validateCompressed hv
          simp only [processCompressed, hv, hurl, hr, ht, HandlerResult.send]
          simp [getProp, List.lookup]

/-- C11: for every request (a body that is absent, `null` or not an object included) and every
outcome of the resolver and of the outbound call, `processNonCompressed` and `processCompressed`
each end by sending exactly one response, every error thrown in the `try` block being turned into
that response by the `catch` block; the status is one of 200, 400, 503, 504, 500, the body carries
a boolean `success` field, and `success` is `true` if and only if the status is 200. -/
theorem handlers_send_exactly_one_response (config : FirebaseConfig) (w : World)
    (request : Request) :
    (∃ r, (processNonCompressed config w request).sent = [r] ∧
        (r.status = 200 ∨ r.status = 400 ∨ r.status = 503 ∨ r.status = 504 ∨ r.status = 500) ∧
        ∃ b, getProp r.body "success" = .ok (.bool b) ∧ (b = true ↔ r.status = 200)) ∧
      (∃ r, (processCompressed config w request).sent = [r] ∧
        (r.status = 200 ∨ r.status = 400 ∨ r.status = 503 ∨ r.status = 504 ∨ r.status = 500) ∧
        ∃ b, getProp r.body "success" = .ok (.bool b) ∧ (b = true ↔ r.status = 200)) := by
  have aux : ∀ sent : List Response,
      (∃ r, sent = [r] ∧
        ((r.status = 200 ∧ getProp r.body "success" = .ok (.bool true)) ∨
          ((r.status = 400 ∨ r.status = 503 ∨ r.status = 504 ∨ r.status = 500) ∧
            getProp r.body "success" = .ok (.bool false)))) →
      ∃ r, sent = [r] ∧
        (r.status = 200 ∨ r.status = 400 ∨ r.status = 503 ∨ r.status = 504 ∨ r.status = 500) ∧
        ∃ b, getProp r.body "success" = .ok (.bool b) ∧ (b = true ↔ r.status = 200) := by
    rintro sent ⟨r, hs, ⟨h200, hsucc⟩ | ⟨hst, hsucc⟩⟩
    · exact ⟨r, hs, Or.inl h200, true, hsucc, fun _ => h200, fun _ => rfl⟩
    · refine ⟨r, hs, Or.inr hst, false, hsucc, fun h => (by cases h), fun h => ?_⟩
      omega
  exact ⟨aux _ (processNonCompressed_response_shape config w request),
    aux _ (processCompressed_response_shape config w request)⟩

/-! ## The outbound call of `processNonCompressed` -/

/-- A call of `getReceiverUrl` issues no call, or the one GET to the discovery API. -/
theorem getReceiverUrl_calls (c : FirebaseConfig) (env : Option String)
    (discovery : Except JsError JsVal) :
    (c.getReceiverUrl env discovery).calls = [] ∨
      (c.getReceiverUrl env discovery).calls = [Call.get "http://localhost:4040/api/tunnels" 2000] := by
  unfold FirebaseConfig.getReceiverUrl
  split
  · exact Or.inl rfl
  · split
    · exact Or.inl rfl
    · split <;> exact Or.inr rfl

/-- For a request that passes validation and a resolved endpoint that converts to the string
`url`, whatever the receiver answers (success or failure), `processNonCompressed` issues exactly
one call to the receiver, preceded at most by the resolver's GET to the discovery API and followed
by no other call: a POST to `url/process_non_compressed` whose body is the request body itself,
with content type `application/json` and timeout `FirebaseConfig.TIMEOUT`, which is 30000 ms. -/
theorem processNonCompressed_post_of_url (config : FirebaseConfig) (w : World)
    (request : Request) (url : String) (hv : validateNonCompressed request.body = .ok true)
    (hurl : toStr (config.getReceiverUrl w.env w.discovery).value = .ok url) :
    FirebaseConfig.TIMEOUT = 30000 ∧
      ((processNonCompressed config w request).calls =
          [Call.post (url ++ "/process_non_compressed") request.body "application/json"
            FirebaseConfig.TIMEOUT] ∨
        (processNonCompressed config w request).calls =
          [Call.get "http://localhost:4040/api/tunnels" 2000,
           Call.post (url ++ "/process_non_compressed") request.body "application/json"
            FirebaseConfig.TIMEOUT]) := by
  refine ⟨rfl, ?_⟩
  have hcalls : (processNonCompressed config w request).calls =
      (config.getReceiverUrl w.env w.discovery).calls ++
        [Call.post (url ++ "/process_non_compressed") request.body "application/json"
          FirebaseConfig.TIMEOUT] := by
    obtain ⟨d, t, -, ht, -, -⟩ := of_validateNonCompressed hv
    cases hr : w.receiver with
    | error e =>
      by_cases h₁ : e.code = some "ECONNREFUSED" ∨ e.code = some "ENOTFOUND" <;>
        by_cases h₂ : e.code = some "ECONNABORTED" <;>
        simp [processNonCompressed, hv, hurl, hr, h₁, h₂, HandlerResult.send]
    | ok data => simp [processNonCompressed, hv, hurl, hr, ht, HandlerResult.send]
  rcases getReceiverUrl_calls config w.env w.discovery with h | h
  · left; rw [hcalls, h]; rfl
  · right; rw [hcalls, h]; rfl

/-- C12 fails on the code: with no override, when the discovery API reports a first tunnel whose
`public_url` is the object `{toString:"x"}`, a request that passes validation gets no call to the
receiver at all.  The resolver returns and caches that object, the template literal that builds
the URL of the POST throws a `TypeError`, and the handler answers HTTP 500 after the one GET to
the discovery API, although the receiver would have answered. -/
theorem processNonCompressed_no_post_on_object_endpoint :
    validateNonCompressed (.obj [("data", .arr [.num 1, .num 2, .num 3]),
        ("timestamp", .str "2024-01-01T00:00:00Z")]) = .ok true ∧
      processNonCompressed FirebaseConfig.new
          { env := none,
            discovery := .ok (.obj [("tunnels",
              .arr [.obj [("public_url", .obj [("toString", .str "x")])]])]),
            receiver := .ok (.obj [("ok", .bool true)]), now := "" }
          { body := .obj [("data", .arr [.num 1, .num 2, .num 3]),
                          ("timestamp", .str "2024-01-01T00:00:00Z")] } =
        { sent := [{ status := 500,
                     body := .obj [("success", .bool false),
                                   ("error", .str "Internal server error"),
                                   ("details", .str "Cannot convert object to primitive value")] }],
          config := { _receiverUrl := .obj [("toString", .str "x")] },
          calls := [Call.get "http://localhost:4040/api/tunnels" 2000] } :=
  ⟨rfl, rfl⟩

/-! ## `getLatestResults` -/

/-- C13 fails on the code: on the results array `[{data_type:"zlib", timestamp:"…:00Z"},
{data_type:"zlib", timestamp:"…:02Z"}]`, whose last element is the most recent one,
`getLatestResults` returns the first entry as `zlib`, while the latest result of type `zlib` is
the second entry; the two entries differ.  (On the empty array it returns `null`, and
`nonCompressed` and `decompressed`, which no entry has, are `undefined`.) -/
theorem getLatestResults_returns_first :
    getLatestResults (.arr
        [.obj [("data_type", .str "zlib"), ("timestamp", .str "2024-01-01T00:00:00Z")],
         .obj [("data_type", .str "zlib"), ("timestamp", .str "2024-01-01T00:00:02Z")]]) =
        .ok (.obj [("nonCompressed", .undefined), ("decompressed", .undefined),
          ("zlib", .obj [("data_type", .str "zlib"), ("timestamp", .str "2024-01-01T00:00:00Z")])]) ∧
      latestOfType
        [.obj [("data_type", .str "zlib"), ("timestamp", .str "2024-01-01T00:00:00Z")],
         .obj [("data_type", .str "zlib"), ("timestamp", .str "2024-01-01T00:00:02Z")]] "zlib" =
        .obj [("data_type", .str "zlib"), ("timestamp", .str "2024-01-01T00:00:02Z")] ∧
      JsVal.obj [("data_type", .str "zlib"), ("timestamp", .str "2024-01-01T00:00:00Z")] ≠
        JsVal.obj [("data_type", .str "zlib"), ("timestamp", .str "2024-01-01T00:00:02Z")] ∧
      getLatestResults (.arr []) = .ok .null := by
  refine ⟨rfl, rfl, ?_, rfl⟩
  intro h
  simp at h

end IOMT
